import Mathlib

/-!
Verification development for the Thera wormhole notification bot
(`src/thera_bot.py`). The definitions below are a shallow embedding of the
route-matching and deduplication engine: timestamps are modelled as integer
seconds, Python dictionaries as insertion-ordered association lists, and the
external HTTP collaborators (Eve-Scout feed, ESI routing service, Discord
sink) as explicit parameters describing their responses.
-/

/-- Anchor system identifier, `THERA_SYSTEM_ID = 31000005` (line 27). -/
def THERA_SYSTEM_ID : Int := 31000005

/-- Lookup in an insertion-ordered association list, mirroring Python
`dict.__getitem__` / `in` (first and only binding per key in dict usage). -/
def alist_lookup {α β : Type} [DecidableEq α] : List (α × β) → α → Option β
  | [], _ => none
  | p :: ps, k => if p.1 = k then some p.2 else alist_lookup ps k

/-- Key assignment in an insertion-ordered association list, mirroring Python
`dict.__setitem__`: an existing binding is overwritten in place, a new key is
appended at the end. -/
def alist_insert {α β : Type} [DecidableEq α] : List (α × β) → α → β → List (α × β)
  | [], k, v => [(k, v)]
  | p :: ps, k, v => if p.1 = k then (k, v) :: ps else p :: alist_insert ps k v

/-- Route cache of the `ESIClient`: `(origin, destination) → (jumps, cached_at)`
(line 189). -/
abbrev RouteCache := List ((Int × Int) × (Int × Int))

/-- Cache window `_cache_duration = timedelta(minutes=30)` (line 190), in
seconds. -/
def _cache_duration : Int := 1800

/-- Possible responses of the external ESI routing collaborator to one route
query (`session.get` in lines 220-242): a 200 with an ordered path, a 404
(no route), another non-success status, or a transport error
(`aiohttp.ClientError` or other exception). -/
inductive EsiResponse : Type where
  | ok (route : List Int)
  | notFound
  | httpError (status : Int)
  | transportError
deriving DecidableEq

/-- Body of `ESIClient.get_route_jumps` after the cache check (lines 210-242):
issue the external query and handle its response. A 200 yields
`len(route) - 1` jumps which is written into the cache; 404, other statuses
and transport errors yield `None` and leave the cache untouched. The third
component records that a network query was issued. -/
def get_route_jumps_query (cache : RouteCache) (now : Int) (resp : EsiResponse)
    (origin_id destination_id : Int) : Option Int × RouteCache × Bool :=
  match resp with
  | .ok route =>
      let jumps : Int := (route.length : Int) - 1
      (some jumps, alist_insert cache (origin_id, destination_id) (jumps, now), true)
  | .notFound => (none, cache, true)
  | .httpError _ => (none, cache, true)
  | .transportError => (none, cache, true)

/-- `ESIClient.get_route_jumps` (lines 192-242). `cache` is the current
`_route_cache`, `now` the value of `datetime.now()` for this call, and `resp`
the response the external routing collaborator would give if queried. Returns
the jump count (or `none`), the updated cache, and whether an external query
was issued. A cached entry younger than `_cache_duration` is returned without
querying (lines 203-208); otherwise the query is issued. -/
def get_route_jumps (cache : RouteCache) (now : Int) (resp : EsiResponse)
    (origin_id destination_id : Int) : Option Int × RouteCache × Bool :=
  match alist_lookup cache (origin_id, destination_id) with
  | some jc =>
      if now - jc.2 < _cache_duration then (some jc.1, cache, false)
      else get_route_jumps_query cache now resp origin_id destination_id
  | none => get_route_jumps_query cache now resp origin_id destination_id

/-- Raw signature record from the Eve-Scout feed. Every field is read through
`dict.get`, which yields `None` for a missing key, so each field is an
`Option`. Only the fields `TheraConnection.__init__` (lines 248-274) reads
are modelled. -/
structure RawData where
  id : Option Int := none
  out_system_id : Option Int := none
  in_system_id : Option Int := none
  out_signature : Option String := none
  in_signature : Option String := none
  out_system_name : Option String := none
  in_system_name : Option String := none
  out_region_name : Option String := none
  in_region_name : Option String := none
  out_system_class : Option String := none
  in_system_class : Option String := none
  wh_type : Option String := none
  max_ship_size : Option String := none
  remaining_hours : Option Int := none
  expires_at : Option String := none
  wh_exits_outward : Option Bool := none
deriving DecidableEq

/-- Processed Thera connection, the fields set by
`TheraConnection.__init__` (lines 248-274). -/
structure TheraConnection where
  id : Option Int
  thera_signature : Option String
  exit_system_id : Option Int
  exit_system_name : Option String
  exit_signature : Option String
  exit_region : Option String
  security_class : String
  wh_type : Option String
  max_ship_size : String
  remaining_hours : Int
  expires_at : Option String
  wh_exits_outward : Bool
deriving DecidableEq

/-- `TheraConnection.__init__` (lines 248-274): the side whose system id
equals `THERA_SYSTEM_ID` becomes the anchor side, the other side the
k-space exit. Python `raw_data.get('out_system_id') == THERA_SYSTEM_ID`
compares `None` unequal to any id, hence the `= some` test. Defaults follow
the `.get(key, default)` calls of the source. -/
def TheraConnection.ofRaw (raw : RawData) : TheraConnection :=
  if raw.out_system_id = some THERA_SYSTEM_ID then
    { id := raw.id
      thera_signature := raw.out_signature
      exit_system_id := raw.in_system_id
      exit_system_name := raw.in_system_name
      exit_signature := raw.in_signature
      exit_region := raw.in_region_name
      security_class := raw.in_system_class.getD "unknown"
      wh_type := raw.wh_type
      max_ship_size := raw.max_ship_size.getD "unknown"
      remaining_hours := raw.remaining_hours.getD 0
      expires_at := raw.expires_at
      wh_exits_outward := raw.wh_exits_outward.getD false }
  else
    { id := raw.id
      thera_signature := raw.in_signature
      exit_system_id := raw.out_system_id
      exit_system_name := raw.out_system_name
      exit_signature := raw.out_signature
      exit_region := raw.out_region_name.orElse fun _ => raw.in_region_name
      security_class := (raw.out_system_class.orElse fun _ => raw.in_system_class).getD "unknown"
      wh_type := raw.wh_type
      max_ship_size := raw.max_ship_size.getD "unknown"
      remaining_hours := raw.remaining_hours.getD 0
      expires_at := raw.expires_at
      wh_exits_outward := raw.wh_exits_outward.getD false }

/-- Python truthiness of an optional string: `None` and the empty string are
falsy. -/
def strTruthy : Option String → Bool
  | none => false
  | some s => s != ""

/-- Python `str.startswith(p)`: the first `len(p)` characters of `s` equal
`p`, expressed on the character sequences of the two strings. -/
def str_startswith (s p : String) : Bool :=
  decide (s.data.take p.data.length = p.data)

/-- Condition of line 545, `conn.exit_system_name and
conn.exit_system_name.startswith('J')`: drop the connection when the
exit-side name is truthy and starts with `J`. A falsy (missing or empty)
name short-circuits the conjunction, so `startswith` is never reached and
the connection is kept. -/
def jSpaceSkip (conn : TheraConnection) : Bool :=
  strTruthy conn.exit_system_name && str_startswith (conn.exit_system_name.getD "") "J"

/-- Loop of lines 541-547 in `check_and_notify`: build `TheraConnection`s
from the raw records and keep those not skipped by the J-prefix filter. -/
def processConnections (conns : List RawData) : List TheraConnection :=
  (conns.map TheraConnection.ofRaw).filter fun c => !jSpaceSkip c

/-- Notification tracker `notified_connections : Dict[str, datetime]`
(line 333), timestamps in integer seconds. -/
abbrev NotifiedMap := List (String × Int)

/-- `TheraBot._is_on_cooldown` (lines 509-516): a key is on cooldown when a
record exists and `now - last_notified < cooldown`. -/
def _is_on_cooldown (notified : NotifiedMap) (now cooldown_seconds : Int)
    (key : String) : Bool :=
  match alist_lookup notified key with
  | none => false
  | some last_notified => now - last_notified < cooldown_seconds

/-- The deduplicator decision of line 611, `not self._is_on_cooldown(key)`:
fire exactly when the key is not on cooldown. -/
def shouldFire (notified : NotifiedMap) (now cooldown_seconds : Int)
    (key : String) : Bool :=
  ! _is_on_cooldown notified now cooldown_seconds key

/-- `TheraBot._clean_old_notifications` (lines 518-524): keep exactly the
entries with `v > now - cooldown_seconds * 2`. -/
def _clean_old_notifications (notified : NotifiedMap) (now cooldown_seconds : Int) :
    NotifiedMap :=
  notified.filter fun kv => decide (kv.2 > now - cooldown_seconds * 2)

/-- A configured departure system (`departure_systems` entry: name and
system id). -/
structure Departure where
  name : String
  system_id : Int
deriving DecidableEq

/-- A configured destination system (`destinations` entry: name, system id
and `max_jumps` threshold). -/
structure Destination where
  name : String
  system_id : Int
  max_jumps : Int
deriving DecidableEq

/-- One leg's distance map `{conn.id: jumps}` (lines 555 and 566), keyed by
connection id. -/
abbrev JumpMap := List (Option Int × Int)

/-- Loop body of lines 555-573: for each processed connection query the
Distance Provider for this leg (`jumps_for conn.exit_system_id` stands for
`get_route_jumps(dep_id, conn.exit_system_id)` on the entry leg and
`get_route_jumps(conn.exit_system_id, dest_id)` on the exit leg) and record
the jump count only when it is not `None`. -/
def build_jump_map (jumps_for : Option Int → Option Int)
    (conns : List TheraConnection) : JumpMap :=
  conns.foldl (fun m conn =>
    match jumps_for conn.exit_system_id with
    | some j => alist_insert m conn.id j
    | none => m) []

/-- Update step of the min-searches in lines 591-594 and 597-600:
`if best is None or jumps < best[1]: best = (conn, jumps)`. The code stores
`conn_by_id[conn_id]` next to the jump count; since `conn_by_id` maps every
id to a connection carrying that id, the selection is determined by the id,
which is what is kept here. Ties keep the first-encountered entry. -/
def best_step (best : Option (Option Int × Int)) (p : Option Int × Int) :
    Option (Option Int × Int) :=
  match best with
  | none => some p
  | some q => if p.2 < q.2 then some p else some q

/-- Best-entry selection (lines 590-594): connection minimizing the
departure-to-exit-system jump count, iterating in map insertion order. -/
def bestEntry (dep_jumps : JumpMap) : Option (Option Int × Int) :=
  dep_jumps.foldl best_step none

/-- Best-exit selection (lines 596-600): connection minimizing the
exit-system-to-destination jump count, independently of the entry. -/
def bestExit (dest_jumps : JumpMap) : Option (Option Int × Int) :=
  dest_jumps.foldl best_step none

/-- Rendering of an optional id inside the route key f-string; Python
formats `None` as the text `None`. -/
def optIdStr : Option Int → String
  | some i => toString i
  | none => "None"

/-- `TheraBot._get_route_key` (lines 505-507):
departure, entry connection, exit connection and destination ids joined
with underscores. -/
def _get_route_key (departure_system_id : Int) (entry_id exit_id : Option Int)
    (destination_system_id : Int) : String :=
  toString departure_system_id ++ "_" ++ optIdStr entry_id ++ "_" ++
    optIdStr exit_id ++ "_" ++ toString destination_system_id

/-- An accepted route, the tuple appended to `good_routes` (line 612):
`(departure, entry_conn, exit_conn, destination, jumps_dep_to_entry,
jumps_exit_to_dest)`, connections represented by their ids. -/
structure GoodRoute where
  departure : Departure
  entry_id : Option Int
  exit_id : Option Int
  destination : Destination
  jumps_dep_to_entry : Int
  jumps_exit_to_dest : Int
deriving DecidableEq

/-- The dedup key of an accepted route, as built at line 610. -/
def good_route_key (r : GoodRoute) : String :=
  _get_route_key r.departure.system_id r.entry_id r.exit_id r.destination.system_id

/-- Same-wormhole flag computed in `send_notifications` (line 644):
`entry_conn.id == exit_conn.id`. -/
def same_wormhole (r : GoodRoute) : Bool :=
  r.entry_id == r.exit_id

/-- Body of the per-(departure, destination) iteration (lines 590-613):
select best entry and best exit, compare the total against the
destination threshold, check the cooldown, and on acceptance emit the route
and record `now` under its key. -/
def processPair (departure : Departure) (destination : Destination)
    (dep_jumps dest_jumps : JumpMap) (notified : NotifiedMap)
    (now cooldown_seconds : Int) : Option GoodRoute × NotifiedMap :=
  match bestEntry dep_jumps, bestExit dest_jumps with
  | some be, some bx =>
      if be.2 + bx.2 ≤ destination.max_jumps then
        let key := _get_route_key departure.system_id be.1 bx.1 destination.system_id
        if ! _is_on_cooldown notified now cooldown_seconds key then
          (some ⟨departure, be.1, bx.1, destination, be.2, bx.2⟩,
            alist_insert notified key now)
        else (none, notified)
      else (none, notified)
  | _, _ => (none, notified)

/-- Inner loop over destinations (lines 586-613) for one departure,
threading the accumulated `good_routes` and the notification tracker. -/
def process_dests (departure : Departure) (dep_jumps : JumpMap)
    (dest_jumps_for : Destination → JumpMap) (destinations : List Destination)
    (now cooldown_seconds : Int) (acc : List GoodRoute × NotifiedMap) :
    List GoodRoute × NotifiedMap :=
  destinations.foldl (fun acc destination =>
    let step := processPair departure destination dep_jumps
      (dest_jumps_for destination) acc.2 now cooldown_seconds
    (match step.1 with
     | some r => acc.1 ++ [r]
     | none => acc.1, step.2)) acc

/-- Outer loop over departures (lines 582-613). `dep_jumps_for` and
`dest_jumps_for` are the distance maps built in lines 555-573
(`departure_to_wh_jumps.get(dep_id, {})` and
`wh_to_dest_jumps.get(dest_id, {})`). -/
def run_pairs (departures : List Departure) (destinations : List Destination)
    (dep_jumps_for : Departure → JumpMap) (dest_jumps_for : Destination → JumpMap)
    (notified : NotifiedMap) (now cooldown_seconds : Int) :
    List GoodRoute × NotifiedMap :=
  departures.foldl (fun acc departure =>
    process_dests departure (dep_jumps_for departure) dest_jumps_for destinations
      now cooldown_seconds acc) ([], notified)

/-- `TheraBot.send_notifications` (lines 621-709): each accepted route is
rendered and sent to the channel; `sink` reports whether `channel.send`
succeeded for that route (a `discord.DiscordException` is caught and only
logged, lines 701-709). The notification tracker is never touched here. -/
def send_notifications (routes : List GoodRoute) (sink : GoodRoute → Bool) :
    List Bool :=
  routes.map sink

/-- Matching-and-notification phase of `TheraBot.check_and_notify`
(lines 578-617): run the per-pair matching (which records accepted keys in
the tracker, line 613) and then attempt delivery of the accepted routes.
Returns the tracker after the cycle and the per-route delivery outcomes. -/
def check_and_notify (departures : List Departure) (destinations : List Destination)
    (dep_jumps_for : Departure → JumpMap) (dest_jumps_for : Destination → JumpMap)
    (notified : NotifiedMap) (now cooldown_seconds : Int)
    (sink : GoodRoute → Bool) : NotifiedMap × List Bool :=
  let mr := run_pairs departures destinations dep_jumps_for dest_jumps_for
    notified now cooldown_seconds
  (mr.2, send_notifications mr.1 sink)

/-- Looking a key up after a dict assignment: the assigned key reads the new
value, every other key is unaffected. -/
theorem alist_lookup_insert {α β : Type} [DecidableEq α] (m : List (α × β)) (k k' : α) (v : β) :
    alist_lookup (alist_insert m k v) k' = if k' = k then some v else alist_lookup m k' := by
  induction m with
  | nil =>
      by_cases h : k' = k
      · subst h; simp [alist_insert, alist_lookup]
      · simp [alist_insert, alist_lookup, h, Ne.symm h]
  | cons p ps ih =>
      by_cases hp : p.1 = k
      · by_cases h : k' = k
        · subst h; simp [alist_insert, alist_lookup, hp]
        · simp [alist_insert, alist_lookup, hp, h, Ne.symm h]
      · by_cases h : k' = k
        · subst h; simp [alist_insert, alist_lookup, hp, ih]
        · simp [alist_insert, alist_lookup, hp, h, ih]

/-- A successful lookup exhibits a binding of the association list. -/
theorem alist_lookup_some_mem {α β : Type} [DecidableEq α] (m : List (α × β)) (k : α) (v : β)
    (h : alist_lookup m k = some v) : (k, v) ∈ m := by
  induction m with
  | nil => simp [alist_lookup] at h
  | cons p ps ih =>
      by_cases hp : p.1 = k
      · simp only [alist_lookup, if_pos hp] at h
        obtain rfl := Option.some_injective _ h
        rw [← hp]
        exact List.mem_cons_self _ _
  
      · simp only [alist_lookup, if_neg hp] at h
        exact List.mem_cons_of_mem _ (ih h)

/-- Every binding after a dict assignment was already present or is the
assigned pair. -/
theorem mem_alist_insert {α β : Type} [DecidableEq α] (m : List (α × β)) (k : α) (v : β)
    (q : α × β) (h : q ∈ alist_insert m k v) : q ∈ m ∨ q = (k, v) := by
  induction m with
  | nil => simp [alist_insert] at h; right; exact h
  | cons p ps ih =>
      by_cases hp : p.1 = k
      · simp only [alist_insert, if_pos hp, List.mem_cons] at h
        rcases h with h | h
        · right; exact h
        · left; exact List.mem_cons_of_mem _ h
      · simp only [alist_insert, if_neg hp, List.mem_cons] at h
        rcases h with h | h
        · left; exact h ▸ List.mem_cons_self _ _
        · rcases ih h with h1 | h1
          · left; exact List.mem_cons_of_mem _ h1
          · right; exact h1

/-- The min-search fold only ever returns its seed or an element of the
scanned list. -/
theorem best_fold_mem (l : List (Option Int × Int)) :
    ∀ (acc : Option (Option Int × Int)) (r : Option Int × Int),
      l.foldl best_step acc = some r → acc = some r ∨ r ∈ l := by
  induction l with
  | nil => intro acc r h; exact Or.inl h
  | cons p ps ih =>
      intro acc r h
      rcases ih (best_step acc p) r h with h1 | h1
      · cases acc with
        | none =>
            simp only [best_step] at h1
            obtain rfl := Option.some_injective _ h1
            right; exact List.mem_cons_self _ _
        | some q =>
            simp only [best_step] at h1
            by_cases hlt : p.2 < q.2
            · rw [if_pos hlt] at h1
              obtain rfl := Option.some_injective _ h1
              right; exact List.mem_cons_self _ _
            · rw [if_neg hlt] at h1
              left; exact h1
      · right; exact List.mem_cons_of_mem _ h1

/-- Generalized form of `build_jump_map_mem` over an arbitrary seed map. -/
theorem build_fold_mem (jumps_for : Option Int → Option Int)
    (conns : List TheraConnection) :
    ∀ (acc : JumpMap) (q : Option Int × Int),
      q ∈ conns.foldl (fun m conn =>
        match jumps_for conn.exit_system_id with
        | some j => alist_insert m conn.id j
        | none => m) acc →
      q ∈ acc ∨ ∃ c ∈ conns, c.id = q.1 ∧ jumps_for c.exit_system_id = some q.2 := by
  induction conns with
  | nil => intro acc q h; exact Or.inl h
  | cons c cs ih =>
      intro acc q h
      rcases ih _ q h with h1 | h1
      · simp only at h1
        cases hf : jumps_for c.exit_system_id with
        | none =>
            rw [hf] at h1
            exact Or.inl h1
        | some j =>
            rw [hf] at h1
            rcases mem_alist_insert _ _ _ _ h1 with h2 | h2
            · exact Or.inl h2
            · right
              refine ⟨c, List.mem_cons_self _ _, ?_, ?_⟩
              · rw [h2]
              · rw [hf, h2]
      · obtain ⟨c', hc', hid, hj⟩ := h1
        exact Or.inr ⟨c', List.mem_cons_of_mem _ hc', hid, hj⟩

/-- Every binding of a leg's distance map comes from a processed connection
whose distance lookup returned a value. -/
theorem build_jump_map_mem (jumps_for : Option Int → Option Int)
    (conns : List TheraConnection) (q : Option Int × Int)
    (h : q ∈ build_jump_map jumps_for conns) :
    ∃ c ∈ conns, c.id = q.1 ∧ jumps_for c.exit_system_id = some q.2 := by
  unfold build_jump_map at h
  rcases build_fold_mem jumps_for conns [] q h with h1 | h1
  · simp at h1
  · exact h1

/-- A connection id whose every bearer got no distance from the provider has
no binding in the leg's distance map. -/
theorem build_jump_map_lookup_none (jumps_for : Option Int → Option Int)
    (conns : List TheraConnection) (k : Option Int)
    (hall : ∀ d ∈ conns, d.id = k → jumps_for d.exit_system_id = none) :
    alist_lookup (build_jump_map jumps_for conns) k = none := by
  cases h : alist_lookup (build_jump_map jumps_for conns) k with
  | none => rfl
  | some v =>
      obtain ⟨c, hc, hid, hf⟩ :=
        build_jump_map_mem jumps_for conns (k, v) (alist_lookup_some_mem _ _ _ h)
      rw [hall c hc hid] at hf
      exact absurd hf (by simp)

/-- Claim C2, counterexample: with cooldown 3600 and a record at time 0, a
call at time 3600 — elapsed time exactly equal to the cooldown — has
`shouldFire` return `true`, whereas the claim says it returns `false`
(it demands the firing be strictly more than cooldown seconds in the
past). -/
theorem shouldFire_boundary_counterexample :
    alist_lookup [("k", (0 : Int))] "k" = some 0 ∧
    ¬ ((3600 : Int) - 0 > 3600) ∧
    shouldFire [("k", (0 : Int))] 3600 3600 "k" = true := by
  decide

/-- Claim C2 as amended: `shouldFire` returns true iff no record exists for
the fingerprint, or the most recent recorded firing is at least the
configured cooldown in the past (elapsed ≥ cooldown); in particular, at an
elapsed time exactly equal to the cooldown it returns true. -/
theorem shouldFire_iff_no_record_or_elapsed_ge_cooldown (notified : NotifiedMap)
    (now cooldown_seconds : Int) (key : String) :
    shouldFire notified now cooldown_seconds key = true ↔
      (alist_lookup notified key = none ∨
       ∃ last, alist_lookup notified key = some last ∧
         cooldown_seconds ≤ now - last) := by
  unfold shouldFire _is_on_cooldown
  cases h : alist_lookup notified key with
  | none => simp
  | some last =>
      simp only [h, Bool.not_eq_true']
      constructor
      · intro hfire
        right
        refine ⟨last, rfl, ?_⟩
        simpa using hfire
      · rintro (hnone | ⟨last2, hlast2, hge⟩)
        · exact absurd hnone (by simp)
        · obtain rfl := Option.some_injective _ hlast2
          simpa using hge

/-- Claim C3, counterexample: with cooldown 3600 a fingerprint last fired at
time 0 is already removed by a sweep at time 7200 = 0 + 2×3600, whereas the
claim says it is still present at exactly `T + 2×cooldown`. -/
theorem sweep_boundary_counterexample :
    (7200 : Int) = 0 + 3600 * 2 ∧
    alist_lookup (_clean_old_notifications [("k", (0 : Int))] 7200 3600) "k" = none := by
  decide

/-- Claim C3 as amended: a fingerprint recorded at time `T` survives the
sweep at current time `now` iff `now < T + 2×cooldown`; it is removed at any
`now ≥ T + 2×cooldown`, so at exactly `T + 2×cooldown` it is already
purged. -/
theorem sweep_keeps_iff_strictly_young (notified : NotifiedMap)
    (now cooldown_seconds T : Int) (key : String) :
    (key, T) ∈ _clean_old_notifications notified now cooldown_seconds ↔
      (key, T) ∈ notified ∧ now < T + cooldown_seconds * 2 := by
  simp only [_clean_old_notifications, List.mem_filter, decide_eq_true_eq]
  constructor
  · rintro ⟨h1, h2⟩; exact ⟨h1, by omega⟩
  · rintro ⟨h1, h2⟩; exact ⟨h1, by omega⟩

/-- Claim C8: when exactly one endpoint of the raw record is the anchor
system, the derived connection's exit system id is the other endpoint's id
and its `thera_signature` is the anchor side's signature field. -/
theorem normalizer_directionality (raw : RawData) :
    (raw.out_system_id = some THERA_SYSTEM_ID →
      raw.in_system_id ≠ some THERA_SYSTEM_ID →
      (TheraConnection.ofRaw raw).exit_system_id = raw.in_system_id ∧
      (TheraConnection.ofRaw raw).thera_signature = raw.out_signature) ∧
    (raw.in_system_id = some THERA_SYSTEM_ID →
      raw.out_system_id ≠ some THERA_SYSTEM_ID →
      (TheraConnection.ofRaw raw).exit_system_id = raw.out_system_id ∧
      (TheraConnection.ofRaw raw).thera_signature = raw.in_signature) := by
  constructor
  · intro hout _
    simp [TheraConnection.ofRaw, hout]
  · intro _ hout
    simp [TheraConnection.ofRaw, hout]

/-- Concrete raw record with the anchor on the `out` side. -/
def rawOutAnchor : RawData :=
  { id := some 1, out_system_id := some THERA_SYSTEM_ID,
    in_system_id := some 30000142, out_signature := some "ABC-123",
    in_signature := some "DEF-456", in_system_name := some "Oisio",
    in_region_name := some "The Forge" }

/-- Concrete raw record with the anchor on the `in` side. -/
def rawInAnchor : RawData :=
  { id := some 2, out_system_id := some 30002187,
    in_system_id := some THERA_SYSTEM_ID, out_signature := some "GHI-789",
    in_signature := some "JKL-012", out_system_name := some "Amarr",
    out_region_name := some "Domain" }

/-- Witness for claim C8, at one concrete record per orientation. -/
theorem normalizer_directionality_witness :
    ((TheraConnection.ofRaw rawOutAnchor).exit_system_id = rawOutAnchor.in_system_id ∧
     (TheraConnection.ofRaw rawOutAnchor).thera_signature = rawOutAnchor.out_signature) ∧
    ((TheraConnection.ofRaw rawInAnchor).exit_system_id = rawInAnchor.out_system_id ∧
     (TheraConnection.ofRaw rawInAnchor).thera_signature = rawInAnchor.in_signature) :=
  ⟨(normalizer_directionality rawOutAnchor).1 (by decide) (by decide),
   (normalizer_directionality rawInAnchor).2 (by decide) (by decide)⟩

/-- Claim C10: a normalized connection whose exit-side system name is
missing is not dropped by the J-prefix filter — the truthiness guard
short-circuits the `startswith` call (so nothing is raised) — and the
connection proceeds into route matching. -/
theorem missing_exit_name_not_dropped (raws : List RawData) (raw : RawData)
    (hmem : raw ∈ raws)
    (hname : (TheraConnection.ofRaw raw).exit_system_name = none) :
    jSpaceSkip (TheraConnection.ofRaw raw) = false ∧
    TheraConnection.ofRaw raw ∈ processConnections raws := by
  have hskip : jSpaceSkip (TheraConnection.ofRaw raw) = false := by
    unfold jSpaceSkip
    rw [hname]
    rfl
  refine ⟨hskip, ?_⟩
  unfold processConnections
  refine List.mem_filter.mpr ⟨List.mem_map_of_mem _ hmem, ?_⟩
  rw [hskip]
  rfl

/-- Concrete raw record whose exit side carries no system name. -/
def rawNoName : RawData :=
  { id := some 3, out_system_id := some THERA_SYSTEM_ID,
    in_system_id := some 30000001, out_signature := some "MNO-345" }

/-- Witness for claim C10 at a concrete nameless record. -/
theorem missing_exit_name_not_dropped_witness :
    jSpaceSkip (TheraConnection.ofRaw rawNoName) = false ∧
    TheraConnection.ofRaw rawNoName ∈ processConnections [rawNoName] :=
  missing_exit_name_not_dropped [rawNoName] rawNoName (by decide) (by decide)

/-- Concrete raw record whose two endpoints are both the anchor system. -/
def rawSelfLoop : RawData :=
  { id := some 100, out_system_id := some THERA_SYSTEM_ID,
    in_system_id := some THERA_SYSTEM_ID, out_signature := some "ABC-123",
    in_signature := some "DEF-456", out_system_name := some "Thera",
    in_system_name := some "Thera", out_region_name := some "G-R00031",
    in_region_name := some "G-R00031" }

/-- Claim C4, counterexample: a raw connection with the anchor on both sides
is not excluded by the k-space name-prefix filter — the anchor's name
`Thera` does not start with `J` — so a DirectedConnection whose exit system
is the anchor is handed to the Route Matcher. -/
theorem selfLoop_not_excluded_counterexample :
    rawSelfLoop.out_system_id = some THERA_SYSTEM_ID ∧
    rawSelfLoop.in_system_id = some THERA_SYSTEM_ID ∧
    TheraConnection.ofRaw rawSelfLoop ∈ processConnections [rawSelfLoop] ∧
    (TheraConnection.ofRaw rawSelfLoop).exit_system_id = some THERA_SYSTEM_ID := by
  decide

/-- Claim C4 as amended: a raw self-loop (both endpoints the anchor) is
dropped by the k-space filter only when its exit-side system name is truthy
and starts with `J`; whenever that name does not start with `J` — as for the
anchor's own name `Thera` — the connection passes the filter and reaches the
Route Matcher as a DirectedConnection whose exit system is the anchor. -/
theorem selfLoop_passes_filter (raws : List RawData) (raw : RawData) (n : String)
    (hmem : raw ∈ raws)
    (hout : raw.out_system_id = some THERA_SYSTEM_ID)
    (hin : raw.in_system_id = some THERA_SYSTEM_ID)
    (hname : raw.in_system_name = some n)
    (hJ : str_startswith n "J" = false) :
    TheraConnection.ofRaw raw ∈ processConnections raws ∧
    (TheraConnection.ofRaw raw).exit_system_id = some THERA_SYSTEM_ID := by
  have hconn_name : (TheraConnection.ofRaw raw).exit_system_name = some n := by
    simp [TheraConnection.ofRaw, hout, hname]
  have hskip : jSpaceSkip (TheraConnection.ofRaw raw) = false := by
    unfold jSpaceSkip
    rw [hconn_name]
    simp [strTruthy, hJ]
  constructor
  · unfold processConnections
    refine List.mem_filter.mpr ⟨List.mem_map_of_mem _ hmem, ?_⟩
    rw [hskip]
    rfl
  · simp [TheraConnection.ofRaw, hout, hin]

/-- Witness for the amended claim C4 at the concrete self-loop record. -/
theorem selfLoop_passes_filter_witness :
    TheraConnection.ofRaw rawSelfLoop ∈ processConnections [rawSelfLoop] ∧
    (TheraConnection.ofRaw rawSelfLoop).exit_system_id = some THERA_SYSTEM_ID :=
  selfLoop_passes_filter [rawSelfLoop] rawSelfLoop "Thera" (by decide) (by decide)
    (by decide) (by decide) (by decide)

/-- Claim C7: a connection for which the Distance Provider returned `none`
on a leg has no binding in that leg's distance map (its distance is never
defaulted), and consequently that leg's min-search never selects it, on the
entry side as on the exit side. `entry_jumps` and `exit_jumps` are the
provider lookups of the two legs for a fixed departure and destination. -/
theorem unroutable_connection_excluded (entry_jumps exit_jumps : Option Int → Option Int)
    (conns : List TheraConnection) (c : TheraConnection)
    (_hc : c ∈ conns)
    (hentry : ∀ d ∈ conns, d.id = c.id → entry_jumps d.exit_system_id = none)
    (hexit : ∀ d ∈ conns, d.id = c.id → exit_jumps d.exit_system_id = none) :
    alist_lookup (build_jump_map entry_jumps conns) c.id = none ∧
    alist_lookup (build_jump_map exit_jumps conns) c.id = none ∧
    (∀ j, bestEntry (build_jump_map entry_jumps conns) ≠ some (c.id, j)) ∧
    (∀ j, bestExit (build_jump_map exit_jumps conns) ≠ some (c.id, j)) := by
  refine ⟨build_jump_map_lookup_none _ _ _ hentry,
          build_jump_map_lookup_none _ _ _ hexit, ?_, ?_⟩
  · intro j hbest
    unfold bestEntry at hbest
    rcases best_fold_mem _ none _ hbest with h1 | h1
    · exact Option.noConfusion h1
    · obtain ⟨d, hd, hid, hf⟩ := build_jump_map_mem entry_jumps conns (c.id, j) h1
      rw [hentry d hd hid] at hf
      exact absurd hf (by simp)
  · intro j hbest
    unfold bestExit at hbest
    rcases best_fold_mem _ none _ hbest with h1 | h1
    · exact Option.noConfusion h1
    · obtain ⟨d, hd, hid, hf⟩ := build_jump_map_mem exit_jumps conns (c.id, j) h1
      rw [hexit d hd hid] at hf
      exact absurd hf (by simp)

/-- Connection used by the claim C7 witness. -/
def connW : TheraConnection := TheraConnection.ofRaw rawInAnchor

/-- Witness for claim C7: with a provider that knows no route at all, the
single connection is absent from both maps and from both min-searches. -/
theorem unroutable_connection_excluded_witness :
    alist_lookup (build_jump_map (fun _ => none) [connW]) connW.id = none ∧
    alist_lookup (build_jump_map (fun _ => none) [connW]) connW.id = none ∧
    (∀ j, bestEntry (build_jump_map (fun _ => none) [connW]) ≠ some (connW.id, j)) ∧
    (∀ j, bestExit (build_jump_map (fun _ => none) [connW]) ≠ some (connW.id, j)) :=
  unroutable_connection_excluded (fun _ => none) (fun _ => none) [connW] connW
    (List.mem_singleton.mpr rfl) (fun _ _ _ => rfl) (fun _ _ _ => rfl)

/-- Claim C1: for a (departure, destination) pair, if a best entry and a
best exit selection both exist and the sum of their jump counts is at most
the destination's `max_jumps`, the RouteCandidate is emitted (provided its
fingerprint is admitted by the downstream deduplication gate of line 611,
which the spec orders after matching); when the best entry and best exit are
the same connection the candidate is still emitted and carries the
same-wormhole flag of line 644. -/
theorem routeMatcher_emits (departure : Departure) (destination : Destination)
    (dep_jumps dest_jumps : JumpMap) (notified : NotifiedMap)
    (now cooldown_seconds : Int) (eid xid : Option Int) (j1 j2 : Int)
    (hbe : bestEntry dep_jumps = some (eid, j1))
    (hbx : bestExit dest_jumps = some (xid, j2))
    (hsum : j1 + j2 ≤ destination.max_jumps)
    (hcd : _is_on_cooldown notified now cooldown_seconds
      (_get_route_key departure.system_id eid xid destination.system_id) = false) :
    (processPair departure destination dep_jumps dest_jumps notified
        now cooldown_seconds).1 =
      some ⟨departure, eid, xid, destination, j1, j2⟩ ∧
    (eid = xid →
      same_wormhole ⟨departure, eid, xid, destination, j1, j2⟩ = true) := by
  constructor
  · unfold processPair
    rw [hbe, hbx]
    simp [hsum, hcd]
  · intro h
    simp [same_wormhole, h]

/-- Witness for claim C1: a single connection at 2 jumps from the departure
and 3 jumps from the destination (threshold 10) is emitted as both entry and
exit, with the same-wormhole flag set. -/
theorem routeMatcher_emits_witness :
    (processPair ⟨"HQ", 10⟩ ⟨"Dest", 20, 10⟩ [(some 1, 2)] [(some 1, 3)] []
        0 3600).1 =
      some ⟨⟨"HQ", 10⟩, some 1, some 1, ⟨"Dest", 20, 10⟩, 2, 3⟩ ∧
    same_wormhole ⟨⟨"HQ", 10⟩, some 1, some 1, ⟨"Dest", 20, 10⟩, 2, 3⟩ = true := by
  have h := routeMatcher_emits ⟨"HQ", 10⟩ ⟨"Dest", 20, 10⟩ [(some 1, 2)]
    [(some 1, 3)] [] 0 3600 (some 1) (some 1) 2 3 (by decide) (by decide)
    (by decide) (by decide)
  exact ⟨h.1, h.2 rfl⟩

/-- Claim C5: after a call that issued a successful external query for a
pair (the claim's premise that a cached value exists; the not-found case is
claim C6), a second call within the 30-minute window returns the cached
value with no network access — so the two calls issued one query in total —
while a call made once the window has expired issues a new external query
even though the prior result is still stored. -/
theorem distance_cache_window (cache : RouteCache) (t1 t2 : Int)
    (route : List Int) (j : Int) (st1 : RouteCache)
    (origin_id destination_id : Int)
    (h1 : get_route_jumps cache t1 (EsiResponse.ok route) origin_id destination_id
      = (some j, st1, true)) :
    (t2 - t1 < _cache_duration →
      ∀ resp2, get_route_jumps st1 t2 resp2 origin_id destination_id
        = (some j, st1, false)) ∧
    (_cache_duration ≤ t2 - t1 →
      ∀ resp2, (get_route_jumps st1 t2 resp2 origin_id destination_id).2.2
        = true) := by
  have hq : get_route_jumps_query cache t1 (EsiResponse.ok route)
      origin_id destination_id = (some j, st1, true) := by
    unfold get_route_jumps at h1
    split at h1
    · split at h1
      · simp at h1
      · exact h1
    · exact h1
  have hst : st1 = alist_insert cache (origin_id, destination_id) (j, t1) := by
    unfold get_route_jumps_query at hq
    simp only [Prod.mk.injEq] at hq
    obtain ⟨hj, hins, -⟩ := hq
    obtain rfl := Option.some_injective _ hj
    exact hins.symm
  have hlook : alist_lookup st1 (origin_id, destination_id) = some (j, t1) := by
    rw [hst, alist_lookup_insert]
    simp
  constructor
  · intro hwin resp2
    simp [get_route_jumps, hlook, hwin]
  · intro hexp resp2
    have hnot : ¬ (t2 - t1 < _cache_duration) := not_lt.mpr hexp
    cases resp2 <;> simp [get_route_jumps, hlook, hnot, get_route_jumps_query]

/-- Witness for claim C5: a first call at time 0 queries and caches 2 jumps;
a second call at time 100 returns the cached value without querying; a call
at time 5000 (window expired) issues a query again. -/
theorem distance_cache_window_witness :
    get_route_jumps [((5, 7), (2, 0))] 100 EsiResponse.notFound 5 7
      = (some 2, [((5, 7), (2, 0))], false) ∧
    (get_route_jumps [((5, 7), (2, 0))] 5000 EsiResponse.notFound 5 7).2.2
      = true := by
  refine ⟨?_, ?_⟩
  · exact (distance_cache_window [] 0 100 [1, 2, 3] 2 [((5, 7), (2, 0))] 5 7
      (by decide)).1 (by decide) EsiResponse.notFound
  · exact (distance_cache_window [] 0 5000 [1, 2, 3] 2 [((5, 7), (2, 0))] 5 7
      (by decide)).2 (by decide) EsiResponse.notFound

/-- Claim C6: when no entry is cached for a pair and the routing
collaborator answers 404, `get_route_jumps` returns `none` and leaves the
cache unchanged, so any subsequent call for the same pair issues a fresh
external query instead of returning a cached negative. -/
theorem notFound_not_memoized (cache : RouteCache) (t : Int)
    (origin_id destination_id : Int)
    (h : alist_lookup cache (origin_id, destination_id) = none) :
    get_route_jumps cache t EsiResponse.notFound origin_id destination_id
      = (none, cache, true) ∧
    (∀ t2 resp2,
      (get_route_jumps cache t2 resp2 origin_id destination_id).2.2 = true) := by
  constructor
  · simp [get_route_jumps, h, get_route_jumps_query]
  · intro t2 resp2
    cases resp2 <;> simp [get_route_jumps, h, get_route_jumps_query]

/-- Witness for claim C6 on the empty cache: the 404 reply is not memoized
and the next call queries again. -/
theorem notFound_not_memoized_witness :
    get_route_jumps [] 0 EsiResponse.notFound 5 7 = (none, [], true) ∧
    (get_route_jumps [] 100 EsiResponse.notFound 5 7).2.2 = true := by
  have h := notFound_not_memoized [] 0 5 7 rfl
  exact ⟨h.1, h.2 100 EsiResponse.notFound⟩

/-- Shape of one (departure, destination) iteration: either nothing is
emitted and the tracker is untouched, or a route is emitted and the tracker
gains exactly its key, valued `now`. -/
theorem processPair_shape (departure : Departure) (destination : Destination)
    (dep_jumps dest_jumps : JumpMap) (notified : NotifiedMap)
    (now cooldown_seconds : Int) :
    (processPair departure destination dep_jumps dest_jumps notified now
        cooldown_seconds = (none, notified)) ∨
    (∃ be bx,
      bestEntry dep_jumps = some be ∧ bestExit dest_jumps = some bx ∧
      processPair departure destination dep_jumps dest_jumps notified now
          cooldown_seconds =
        (some ⟨departure, be.1, bx.1, destination, be.2, bx.2⟩,
         alist_insert notified
           (_get_route_key departure.system_id be.1 bx.1 destination.system_id)
           now)) := by
  cases hbe : bestEntry dep_jumps with
  | none => left; simp [processPair, hbe]
  | some be =>
      cases hbx : bestExit dest_jumps with
      | none => left; simp [processPair, hbe, hbx]
      | some bx =>
          by_cases hs : be.2 + bx.2 ≤ destination.max_jumps
          · cases hcd : _is_on_cooldown notified now cooldown_seconds
                (_get_route_key departure.system_id be.1 bx.1 destination.system_id) with
            | false =>
                right
                refine ⟨be, bx, by simp [hbe], by simp [hbx], ?_⟩
                simp [processPair, hbe, hbx, hs, hcd]
            | true =>
                left
                simp [processPair, hbe, hbx, hs, hcd]
          · left
            simp [processPair, hbe, hbx, hs]

/-- A record valued `now` survives one (departure, destination) iteration. -/
theorem processPair_preserves (departure : Departure) (destination : Destination)
    (dep_jumps dest_jumps : JumpMap) (notified : NotifiedMap)
    (now cooldown_seconds : Int) (k : String)
    (h : alist_lookup notified k = some now) :
    alist_lookup (processPair departure destination dep_jumps dest_jumps notified
      now cooldown_seconds).2 k = some now := by
  rcases processPair_shape departure destination dep_jumps dest_jumps notified
      now cooldown_seconds with hsh | ⟨be, bx, -, -, hsh⟩
  · rw [hsh]; exact h
  · simp only [hsh]
    rw [alist_lookup_insert]
    split
    · rfl
    · exact h

/-- An emitted route's key reads back `now` from the updated tracker. -/
theorem processPair_emit (departure : Departure) (destination : Destination)
    (dep_jumps dest_jumps : JumpMap) (notified : NotifiedMap)
    (now cooldown_seconds : Int) (r : GoodRoute)
    (h : (processPair departure destination dep_jumps dest_jumps notified now
      cooldown_seconds).1 = some r) :
    alist_lookup (processPair departure destination dep_jumps dest_jumps notified
      now cooldown_seconds).2 (good_route_key r) = some now := by
  rcases processPair_shape departure destination dep_jumps dest_jumps notified
      now cooldown_seconds with hsh | ⟨be, bx, -, -, hsh⟩
  · rw [hsh] at h
    exact Option.noConfusion h
  · simp only [hsh] at h ⊢
    obtain rfl := (Option.some_injective _ h).symm
    simp [good_route_key, _get_route_key, alist_lookup_insert]

/-- One destination step of the accumulating loop preserves the invariant
that every accumulated route's key reads back `now`. -/
theorem pair_step_inv (departure : Departure) (destination : Destination)
    (dep_jumps dest_jumps : JumpMap) (acc : List GoodRoute × NotifiedMap)
    (now cooldown_seconds : Int)
    (hacc : ∀ r ∈ acc.1, alist_lookup acc.2 (good_route_key r) = some now) :
    ∀ r ∈ (match (processPair departure destination dep_jumps dest_jumps acc.2
        now cooldown_seconds).1 with
      | some g => acc.1 ++ [g]
      | none => acc.1),
      alist_lookup (processPair departure destination dep_jumps dest_jumps acc.2
        now cooldown_seconds).2 (good_route_key r) = some now := by
  intro r hr
  cases hpp : (processPair departure destination dep_jumps dest_jumps acc.2
      now cooldown_seconds).1 with
  | none =>
      rw [hpp] at hr
      exact processPair_preserves departure destination dep_jumps dest_jumps acc.2
        now cooldown_seconds _ (hacc r hr)
  | some g =>
      rw [hpp] at hr
      rcases List.mem_append.mp hr with h1 | h1
      · exact processPair_preserves departure destination dep_jumps dest_jumps acc.2
          now cooldown_seconds _ (hacc r h1)
      · obtain rfl := List.mem_singleton.mp h1
        exact processPair_emit departure destination dep_jumps dest_jumps acc.2
          now cooldown_seconds r hpp

/-- The destination loop preserves the recorded-key invariant. -/
theorem process_dests_inv (departure : Departure) (dep_jumps : JumpMap)
    (dest_jumps_for : Destination → JumpMap) (now cooldown_seconds : Int) :
    ∀ (destinations : List Destination) (acc : List GoodRoute × NotifiedMap),
      (∀ r ∈ acc.1, alist_lookup acc.2 (good_route_key r) = some now) →
      ∀ r ∈ (process_dests departure dep_jumps dest_jumps_for destinations now
          cooldown_seconds acc).1,
        alist_lookup (process_dests departure dep_jumps dest_jumps_for destinations
          now cooldown_seconds acc).2 (good_route_key r) = some now := by
  intro destinations
  induction destinations with
  | nil => intro acc hacc; exact hacc
  | cons d ds ih =>
      intro acc hacc
      exact ih _ (pair_step_inv departure d dep_jumps (dest_jumps_for d) acc
        now cooldown_seconds hacc)

/-- The departure loop preserves the recorded-key invariant. -/
theorem run_pairs_records (destinations : List Destination)
    (dep_jumps_for : Departure → JumpMap) (dest_jumps_for : Destination → JumpMap)
    (now cooldown_seconds : Int) :
    ∀ (departures : List Departure) (acc : List GoodRoute × NotifiedMap),
      (∀ r ∈ acc.1, alist_lookup acc.2 (good_route_key r) = some now) →
      ∀ r ∈ (departures.foldl (fun acc departure =>
          process_dests departure (dep_jumps_for departure) dest_jumps_for
            destinations now cooldown_seconds acc) acc).1,
        alist_lookup (departures.foldl (fun acc departure =>
          process_dests departure (dep_jumps_for departure) dest_jumps_for
            destinations now cooldown_seconds acc) acc).2
          (good_route_key r) = some now := by
  intro departures
  induction departures with
  | nil => intro acc hacc; exact hacc
  | cons dep rest ih =>
      intro acc hacc
      exact ih _ (process_dests_inv dep (dep_jumps_for dep) dest_jumps_for now
        cooldown_seconds destinations acc hacc)

/-- Claim C9: the dedup record of every accepted route is written by the
matching phase itself — the tracker returned by the full cycle is exactly
the one `run_pairs` produced before delivery was attempted, is identical for
any two delivery sinks, and maps every accepted route's fingerprint to
`now`; a failing sink therefore never rolls a record back. -/
theorem dedup_record_independent_of_delivery (departures : List Departure)
    (destinations : List Destination) (dep_jumps_for : Departure → JumpMap)
    (dest_jumps_for : Destination → JumpMap) (notified : NotifiedMap)
    (now cooldown_seconds : Int) (sink sink1 sink2 : GoodRoute → Bool) :
    (check_and_notify departures destinations dep_jumps_for dest_jumps_for
        notified now cooldown_seconds sink1).1 =
      (check_and_notify departures destinations dep_jumps_for dest_jumps_for
        notified now cooldown_seconds sink2).1 ∧
    (check_and_notify departures destinations dep_jumps_for dest_jumps_for
        notified now cooldown_seconds sink).1 =
      (run_pairs departures destinations dep_jumps_for dest_jumps_for notified
        now cooldown_seconds).2 ∧
    ∀ r ∈ (run_pairs departures destinations dep_jumps_for dest_jumps_for
        notified now cooldown_seconds).1,
      alist_lookup (check_and_notify departures destinations dep_jumps_for
        dest_jumps_for notified now cooldown_seconds sink).1
        (good_route_key r) = some now := by
  refine ⟨rfl, rfl, ?_⟩
  intro r hr
  exact run_pairs_records destinations dep_jumps_for dest_jumps_for now
    cooldown_seconds departures ([], notified) (by simp) r hr

/-- Witness for claim C9: one accepted route, delivered through a sink that
always fails; its fingerprint still reads back the recording time 0. -/
theorem dedup_record_independent_of_delivery_witness :
    alist_lookup (check_and_notify [⟨"A", 11⟩] [⟨"B", 22, 10⟩]
        (fun _ => [(some 4, 2)]) (fun _ => [(some 4, 3)]) [] 0 3600
        (fun _ => false)).1
      (good_route_key ⟨⟨"A", 11⟩, some 4, some 4, ⟨"B", 22, 10⟩, 2, 3⟩) = some 0 :=
  (dedup_record_independent_of_delivery [⟨"A", 11⟩] [⟨"B", 22, 10⟩]
      (fun _ => [(some 4, 2)]) (fun _ => [(some 4, 3)]) [] 0 3600
      (fun _ => false) (fun _ => false) (fun _ => true)).2.2
    ⟨⟨"A", 11⟩, some 4, some 4, ⟨"B", 22, 10⟩, 2, 3⟩ (by decide)
